import Mathlib

/-!
Verification of the Metadata Analyzer Tool's analysis engine (src/main.py)
against its natural-language specification.  Python functions are shallowly
embedded as Lean definitions: byte strings become lists of `Fin 256`,
Python floats become exact rationals (every IEEE double is a rational) or
reals where the specification speaks about real-valued mathematics
(Shannon entropy), fallible parsing returns `Option`, and the mutation of
the `anomalies` / `logical_issues` accumulators is modelled by returning
the lists of appended messages.
-/

/-- The apostrophe character (written via its code point). -/
def apos : Char := Char.ofNat 39

/-- The one-character string holding an apostrophe. -/
def squo : String := ⟨[apos]⟩

/-- `startsWith needle hay`: `needle` is an initial segment of `hay`. -/
def startsWith : List Char → List Char → Bool
  | [], _ => true
  | _ :: _, [] => false
  | a :: as, b :: bs => a == b && startsWith as bs

/-- `hasSub needle hay`: `needle` occurs contiguously inside `hay`.
Embeds Python's `needle in hay` substring test. -/
def hasSub (needle : List Char) : List Char → Bool
  | [] => startsWith needle []
  | c :: rest => startsWith needle (c :: rest) || hasSub needle rest

/-- Substring test on `String`, embedding Python's `in` operator. -/
def strHasSub (needle hay : String) : Bool :=
  hasSub needle.data hay.data

/-- ASCII lower-casing, embedding Python's `.lower()` for the ASCII
keywords the detectors match against. -/
def lowerStr (s : String) : String := ⟨s.data.map Char.toLower⟩

/-- Numeric value of a decimal digit character. -/
def digitVal (c : Char) : Nat := c.toNat - 48

/-- Value of a list of decimal digit characters, most significant first.
Embeds Python's `int(...)` on a digit-only string. -/
def digitsToNat (l : List Char) : Nat := l.foldl (fun n c => 10 * n + digitVal c) 0

/-- Result of `parse_pdf_date` (src/main.py:70-105): the fields of the
`datetime` object, with `tzOffsetMinutes = none` for a naive datetime and
`some k` for `timezone(timedelta(minutes=k))`. -/
structure PdfDate where
  year : Nat
  month : Nat
  day : Nat
  hour : Nat
  minute : Nat
  second : Nat
  tzOffsetMinutes : Option Int
deriving DecidableEq, Repr

/-- The optional timezone tail of the regex
`([Zz]|([+\-])(\d{2})'(\d{2})')?` in `parse_pdf_date`: a leading `Z`/`z`
gives UTC (offset 0); a sign followed by exactly `dd'dd'` gives a signed
offset in minutes; anything else leaves the optional group unmatched, so
the datetime stays naive (`none`). Characters after the matched part are
ignored, as with `re.match`. -/
def parseTzTail : List Char → Option Int
  | [] => none
  | c :: rest =>
    if c == 'Z' || c == 'z' then some 0
    else if c == '+' || c == '-' then
      match rest with
      | h1 :: h2 :: q1 :: m1 :: m2 :: q2 :: _ =>
        if h1.isDigit && h2.isDigit && q1 == apos && m1.isDigit && m2.isDigit && q2 == apos then
          let t : Int := (digitsToNat [h1, h2]) * 60 + digitsToNat [m1, m2]
          some (if c == '-' then -t else t)
        else none
      | _ => none
    else none

/-- Gregorian leap-year rule, as used by Python's `datetime`. -/
def isLeapYear (y : Nat) : Bool := y % 4 == 0 && (y % 100 != 0 || y % 400 == 0)

/-- Number of days in a month, as enforced by Python's `datetime`. -/
def daysInMonth (y mo : Nat) : Nat :=
  if mo == 2 then (if isLeapYear y then 29 else 28)
  else if mo == 4 || mo == 6 || mo == 9 || mo == 11 then 30
  else 31

/-- Validity of a year/month/day triple for Python's `datetime`
constructor (which raises `ValueError`, caught by `parse_pdf_date`, on an
invalid calendar date such as February 31st or year 0). -/
def isValidYMD (y mo da : Nat) : Bool :=
  1 ≤ y && y ≤ 9999 && 1 ≤ da && da ≤ daysInMonth y mo

/-- Embedding of `parse_pdf_date` (src/main.py:70-105).  The Python code
matches `re.match(r"D:(\d{4})(\d{2})(\d{2})(\d{2})(\d{2})(\d{2})([Zz]|([+\-])(\d{2})'(\d{2})')?", s)`
— a prefix match: trailing characters after the matched part are ignored,
and a malformed timezone suffix simply leaves the optional group empty.
It then rejects out-of-range components (month, day, hour, minute,
second), lets the `datetime` constructor reject invalid calendar dates,
and lets `timezone(timedelta(...))` reject offsets of 24 hours or more;
every failure is caught and turned into `none`, so the function never
raises. -/
def parse_pdf_date (s : String) : Option PdfDate :=
  match s.data with
  | 'D' :: ':' :: rest =>
    if (rest.take 14).length = 14 ∧ (rest.take 14).all Char.isDigit then
      let y := digitsToNat (rest.take 4)
      let mo := digitsToNat ((rest.drop 4).take 2)
      let da := digitsToNat ((rest.drop 6).take 2)
      let ho := digitsToNat ((rest.drop 8).take 2)
      let mi := digitsToNat ((rest.drop 10).take 2)
      let se := digitsToNat ((rest.drop 12).take 2)
      if 1 ≤ mo ∧ mo ≤ 12 ∧ 1 ≤ da ∧ da ≤ 31 ∧ ho ≤ 23 ∧ mi ≤ 59 ∧ se ≤ 59 then
        if isValidYMD y mo da then
          match parseTzTail (rest.drop 14) with
          | none => some ⟨y, mo, da, ho, mi, se, none⟩
          | some off =>
            if -1440 < off ∧ off < 1440 then some ⟨y, mo, da, ho, mi, se, some off⟩
            else none
        else none
      else none
    else none
  | _ => none

/-- Whether a string begins with the `D:` + 14-digit prefix that
`parse_pdf_date`'s regex requires.  Derived description used to state
when parsing can succeed. -/
def pdfPrefixOk (s : String) : Bool :=
  match s.data with
  | 'D' :: ':' :: rest => (rest.take 14).length == 14 && (rest.take 14).all Char.isDigit
  | _ => false

/-- Modelled from the spec's words, not from the code: a full-string
match of the shape `D:YYYYMMDDHHmmSS[Z|±HH'MM']` — the whole string is
`D:`, 14 digits, and then either nothing, a single `Z`, or a sign with
`HH'MM'`.  Used to compare the spec's claimed behaviour with the
prefix-matching behaviour of the code. -/
def pdfDateShape (s : String) : Bool :=
  match s.data with
  | 'D' :: ':' :: rest =>
    (rest.take 14).length == 14 && (rest.take 14).all Char.isDigit &&
      (match rest.drop 14 with
       | [] => true
       | [c] => c == 'Z'
       | [sgn, h1, h2, q1, m1, m2, q2] =>
         (sgn == '+' || sgn == '-') && h1.isDigit && h2.isDigit && q1 == apos
           && m1.isDigit && m2.isDigit && q2 == apos
       | _ => false)
  | _ => false

/-- Left-pad a digit string with zeros to the given length. -/
def padZeros (len : Nat) (s : String) : String :=
  if s.length < len then (⟨List.replicate (len - s.length) '0'⟩ : String) ++ s else s

/-- Fixed-point decimal formatting with `prec` digits, embedding Python's
`f"{x:.4f}"` / `f"{x:.6f}"` on the exact rational value of the float
(CPython formats with correct rounding, ties to even).  `|q| * 10^prec`
has numerator `q.num.natAbs * 10^prec` over `q.den`; its floor is `n`
with remainder `rem`, and the fractional part `rem/q.den` is compared
with 1/2 by cross-multiplication. -/
def fmtFixed (prec : Nat) (q : ℚ) : String :=
  let na : Nat := q.num.natAbs
  let scaledNum : Nat := na * 10 ^ prec
  let n : Nat := scaledNum / q.den
  let rem : Nat := scaledNum % q.den
  let r : Nat :=
    if q.den < 2 * rem then n + 1
    else if 2 * rem < q.den then n
    else if n % 2 = 0 then n else n + 1
  let ip := r / 10 ^ prec
  let fp := r % 10 ^ prec
  (if q.num < 0 then "-" else "") ++ Nat.repr ip ++ "." ++ padZeros prec (Nat.repr fp)

/-- The ordered rule table of `check_file_signature_mismatch`
(src/main.py:735-743).  Python dicts iterate in insertion order, so the
`for` loop over `red_flags.items()` checks these pairs in exactly this
order. -/
def red_flags : List ((String × String) × String) := [
  ((".jpg", "PDF"), "⚠️ FAKE IMAGE: This is actually a PDF document!"),
  ((".jpg", "executable"), "🚨 MALWARE: This " ++ squo ++ "image" ++ squo ++ " is an executable!"),
  ((".pdf", "executable"), "🚨 MALWARE: This PDF is an executable!"),
  ((".docx", "executable"), "🚨 MALWARE: This document is an executable!"),
  ((".exe", "text"), "⚠️ SUSPICIOUS: Executable masquerading as text"),
  ((".zip", "executable"), "🚨 MALWARE: Archive is actually an executable!"),
  ((".png", "executable"), "🚨 MALWARE: This image is an executable!")]

/-- Extension classes exempt from the generic executable rule
(src/main.py:750). -/
def execExtensions : List String := [".exe", ".dll", ".bat", ".ps1", ".sh"]

/-- The generic suspicious-executable warning (src/main.py:751). -/
def suspiciousExecMsg (ext : String) : String :=
  "⚠️ SUSPICIOUS: " ++ ext ++ " file is actually an executable!"

/-- Embedding of `check_file_signature_mismatch` (src/main.py:726-756),
given the lower-cased extension and the sniffed content type.  (When the
`magic` library is absent or sniffing raises, the Python function returns
`None` before reaching this logic.)  The first rule of the ordered table
whose extension matches exactly and whose keyword occurs in the sniffed
type wins; otherwise the generic executable rule applies. -/
def check_file_signature_mismatch (ext trueType : String) : Option String :=
  match red_flags.find? (fun r => ext == r.1.1 && strHasSub r.1.2 trueType) with
  | some r => some r.2
  | none =>
    if strHasSub "executable" trueType && !(execExtensions.contains ext) then
      some (suspiciousExecMsg ext)
    else none

/-- The fixed required EXIF tag set (src/main.py:1759). -/
def required_tags : List String := ["DateTimeOriginal", "Make", "Model"]

/-- The required tags absent from the set of found tag names
(src/main.py:1760). -/
def exif_missing_tags (found : List String) : List String :=
  required_tags.filter (fun t => !(found.contains t))

/-- The combined missing-tags anomaly message (src/main.py:1764). -/
def exif_missing_msg (baseName : String) (missing : List String) : String :=
  "File " ++ squo ++ baseName ++ squo ++ ": Missing common EXIF tags: " ++
    String.intercalate ", " missing

/-- Anomaly lines appended by the missing-required-tags check of
`process_image_exif` (src/main.py:1759-1764): one combined message when
anything is missing, nothing otherwise. -/
def process_image_exif_missing (baseName : String) (found : List String) : List String :=
  let missing := exif_missing_tags found
  if missing.isEmpty then [] else [exif_missing_msg baseName missing]

/-- What one detector of `check_steganography` contributes for one file:
the tree items added under the "Steganography Analysis" node, and the
messages appended to the batch-wide `anomalies` list. -/
structure StegReport where
  nodes : List (String × String)
  anomalies : List String
deriving DecidableEq, Repr

/-- The `File '<name>': <msg>` prefixing used for anomaly lines. -/
def fileMsg (baseName msg : String) : String :=
  "File " ++ squo ++ baseName ++ squo ++ ": " ++ msg

/-- The high-entropy warning text (src/main.py:852). -/
def entropy_anomaly_msg (e : ℚ) : String :=
  "⚠️ ENTROPY ANOMALY: High entropy (" ++ fmtFixed 4 e ++
    ") detected - suggests possible hidden data or encryption."

/-- Embedding of the entropy branch of `check_steganography`
(src/main.py:841-858), given the value returned by `calculate_entropy`
(a float, embedded as its exact rational value): the "Entropy" item is
always added; a value strictly above the 7.8 threshold adds one
"⚠️ High Entropy" item and appends exactly one anomaly, otherwise an
"Entropy Status" item and no anomaly. -/
def entropy_branch (baseName : String) (e : ℚ) : StegReport :=
  if 7.8 < e then
    ⟨[("Entropy", fmtFixed 4 e), ("⚠️ High Entropy", entropy_anomaly_msg e)],
     [fileMsg baseName (entropy_anomaly_msg e)]⟩
  else
    ⟨[("Entropy", fmtFixed 4 e), ("Entropy Status", "Entropy within expected range.")], []⟩

/-- Outcome of the `lsb.reveal` call: it either returns (possibly `None`)
or raises an exception carrying a message. -/
inductive RevealOutcome where
  | ok : Option String → RevealOutcome
  | failed : String → RevealOutcome
deriving DecidableEq, Repr

/-- The positive LSB finding text (src/main.py:815). -/
def lsb_hidden_msg : String := "🔍 STEGANOGRAPHY (LSB): Possible hidden data detected."

/-- Embedding of the LSB branch of `check_steganography`
(src/main.py:806-831) for a PNG/BMP file with the `stegano` library
present.  `hidden_message` starts as `None` and the `lsb.reveal` call
sits inside `try: ... except Exception: pass`, so any exception it
raises (including `PermissionError`, a subclass of `Exception`) leaves
`hidden_message = None`; the outer `except PermissionError` /
`except Exception` handlers at src/main.py:823-831 are unreachable for
failures of the extraction itself.  A non-empty, non-whitespace result
yields the positive finding; everything else yields the
"No easily extractable LSB data found." item and no anomaly. -/
def lsb_branch (baseName : String) (outcome : RevealOutcome) : StegReport :=
  let hidden : Option String := match outcome with
    | RevealOutcome.ok m => m
    | RevealOutcome.failed _ => none
  match hidden with
  | some m =>
    if m ≠ "" ∧ m.trim ≠ "" then
      ⟨[("⚠️ LSB Detection", lsb_hidden_msg)], [fileMsg baseName lsb_hidden_msg]⟩
    else ⟨[("LSB Detection", "No easily extractable LSB data found.")], []⟩
  | none => ⟨[("LSB Detection", "No easily extractable LSB data found.")], []⟩

/-- Embedding of the latitude/longitude conversion of `_parse_gps_info`
(src/main.py:1606-1621): present iff both the DMS triple and the
reference are present; decimal degrees are `deg + min/60 + sec/3600`,
negated when the reference equals the negative hemisphere (`"S"` for
latitude, `"W"` for longitude).  EXIF rationals are embedded as exact
rationals. -/
def gps_decimal (dms : Option (ℚ × ℚ × ℚ)) (ref : Option String) (negRef : String) : Option ℚ :=
  match dms, ref with
  | some (d, m, s), some r =>
    let v := d + m / 60 + s / 3600
    some (if r = negRef then -v else v)
  | _, _ => none

/-- Embedding of the altitude conversion of `_parse_gps_info`
(src/main.py:1624-1633): a two-element tuple is treated as a ratio (zero
denominator giving 0.0), and the value is negated when the
below-sea-level reference flag equals 1. -/
def gps_altitude (v : Option (Sum ℚ (ℚ × ℚ))) (ref : Option Nat) : Option ℚ :=
  match v with
  | none => none
  | some av =>
    let a : ℚ := match av with
      | Sum.inr (n, d) => if d ≠ 0 then n / d else 0
      | Sum.inl x => x
    some (if ref = some 1 then -a else a)

/-- The `GPSPosition` composition of `_parse_gps_info`
(src/main.py:1636-1639): produced only when both decimal coordinates
exist, as `f"{latitude:.6f}, {longitude:.6f}"`. -/
def gps_position (lat lon : Option ℚ) : Option String :=
  match lat, lon with
  | some la, some lo => some (fmtFixed 6 la ++ ", " ++ fmtFixed 6 lo)
  | _, _ => none

/-- The decimal-coordinate outputs of `_parse_gps_info`
(src/main.py:1591-1650): `GPSLatitudeDec`, `GPSLongitudeDec` and
`GPSPosition`. -/
def parse_gps_info (latDMS : Option (ℚ × ℚ × ℚ)) (latRef : Option String)
    (lonDMS : Option (ℚ × ℚ × ℚ)) (lonRef : Option String) :
    Option ℚ × Option ℚ × Option String :=
  let la := gps_decimal latDMS latRef "S"
  let lo := gps_decimal lonDMS lonRef "W"
  (la, lo, gps_position la lo)

/-- A metadata tree item: key, value text, children
(mirrors a `QTreeWidgetItem` row). -/
inductive MTree where
  | node : String → String → List MTree → MTree
deriving Repr

/-- A value in the collected metadata dictionary: a scalar string or a
nested dictionary. -/
inductive MetaVal where
  | leaf : String → MetaVal
  | dict : List (String × MetaVal) → MetaVal
deriving Repr

/-- Embedding of `_collect_metadata_dict` (src/main.py:376-389): an item
with children becomes a nested dictionary under its key; a childless item
is kept as a scalar only when its value text is non-empty (Python's
`child.text(1) if child.text(1) else None`). -/
def collectDict : List MTree → List (String × MetaVal)
  | [] => []
  | MTree.node k v [] :: rest =>
    (if v = "" then [] else [(k, MetaVal.leaf v)]) ++ collectDict rest
  | MTree.node k _v (c :: cs) :: rest =>
    (k, MetaVal.dict (collectDict (c :: cs))) :: collectDict rest

/-- Python-dict lookup on the collected association list: the last
binding of a key wins, absent keys give `none`. -/
def metaGet (metadata : List (String × MetaVal)) (key : String) : Option MetaVal :=
  ((metadata.reverse).find? (fun p => p.1 == key)).map Prod.snd

/-- `metadata.get(key, "")` as used by `check_suspicious_authors`, which
then treats the result as a string.  (For the keys it queries, extractors
only ever store scalar strings; a nested dictionary at such a key would
make the Python code raise inside the per-file catch-all instead.) -/
def metaGetStr (metadata : List (String × MetaVal)) (key : String) : String :=
  match metaGet metadata key with
  | some (MetaVal.leaf s) => s
  | _ => ""

/-- Embedding of `check_suspicious_authors` (src/main.py:758-783): the
returned warning list, whose entries `process_next_file` routes to
`logical_issues` (src/main.py:1329-1336). -/
def check_suspicious_authors (metadata : List (String × MetaVal)) (fileType : String) :
    List String :=
  if fileType = "docx" then
    let author := metaGetStr metadata "Last Modified By"
    if strHasSub "admin" (lowerStr author) then
      ["SUSPECT USER: Last modified by " ++ squo ++ author ++ squo]
    else []
  else if fileType = "pdf" then
    let creator := metaGetStr metadata "Creator"
    let producer := metaGetStr metadata "Producer"
    (if strHasSub "photoshop" (lowerStr creator) then
      ["UNEXPECTED CREATOR: Created with Photoshop (" ++ creator ++ ")"] else []) ++
    (if strHasSub "crack" (lowerStr producer) || strHasSub "keygen" (lowerStr producer) then
      ["SUSPICIOUS PRODUCER: " ++ producer] else [])
  else if fileType = "image" then
    let serial := metaGetStr metadata "SerialNumber"
    if serial ≠ "" ∧ serial.length > 10 then ["CAMERA ID: " ++ serial] else []
  else []

/-- The admin-account anomaly text of `process_docx` (src/main.py:1958). -/
def docx_admin_msg (baseName v : String) : String :=
  "File " ++ squo ++ baseName ++ squo ++ ": Modified by admin account - " ++ v

/-- The generic-account logical issue text of `process_docx`
(src/main.py:1961). -/
def docx_generic_msg (baseName v : String) : String :=
  "File " ++ squo ++ baseName ++ squo ++ ": Modified by generic account - " ++ v

/-- Embedding of the "Last Modified By" handling of `process_docx`
(src/main.py:1953-1961): the tree items added under the "DOCX Metadata"
group, the anomalies appended, and the logical issues appended.  A falsy
(empty) property is skipped entirely. -/
def docx_lastModifiedBy_step (baseName v : String) :
    List MTree × List String × List String :=
  if v ≠ "" then
    let item := MTree.node "Last Modified By" v []
    if strHasSub "admin" (lowerStr v) then ([item], [docx_admin_msg baseName v], [])
    else if strHasSub "temp" (lowerStr v) || strHasSub "user" (lowerStr v) then
      ([item], [], [docx_generic_msg baseName v])
    else ([item], [], [])
  else ([], [], [])

/-- The DOCX portion of `process_next_file` (src/main.py:1311-1336)
relevant to admin authorship: run the extractor's "Last Modified By"
handling, collect the per-file metadata dictionary from the tree (where
the property sits nested under the "DOCX Metadata" group), run
`check_suspicious_authors` on it, and route its warnings to
`logical_issues` with a `basename: ` prefix.  Returns the pair
(anomalies appended, logical issues appended). -/
def docx_admin_pipeline (baseName v : String) : List String × List String :=
  let step := docx_lastModifiedBy_step baseName v
  let metadata := collectDict [MTree.node "DOCX Metadata" "" step.1]
  let warnings := check_suspicious_authors metadata "docx"
  (step.2.1, step.2.2 ++ warnings.map (fun w => baseName ++ ": " ++ w))

/-- Embedding of the byte-histogram Shannon entropy computed by
`calculate_entropy` (src/main.py:886-898) on successfully read bytes:
0.0 for empty data, otherwise `-Σ p(b)·log2 p(b)` over the observed byte
values.  The float computation is embedded in the reals. -/
noncomputable def calculate_entropy_bytes (data : List (Fin 256)) : ℝ :=
  if data = [] then 0
  else ∑ b : Fin 256,
    (if data.count b = 0 then 0
     else -(((data.count b : ℝ) / (data.length : ℝ)) *
       Real.logb 2 ((data.count b : ℝ) / (data.length : ℝ))))

/-- Embedding of `calculate_entropy` (src/main.py:878-898) including its
own `try/except` around reading the file: a read failure is caught
inside the function and turned into the ordinary return value `0.0`
(src/main.py:882-884), so the caller cannot distinguish it from a real
entropy of zero. -/
noncomputable def calculate_entropy (readResult : Except String (List (Fin 256))) : ℝ :=
  match readResult with
  | Except.error _ => 0
  | Except.ok d => calculate_entropy_bytes d

/-! ## Helper lemmas -/

theorem startsWith_append (n t : List Char) : startsWith n (n ++ t) = true := by
  induction n with
  | nil => rfl
  | cons a as ih => simp [startsWith, ih]

theorem hasSub_self_append (n b : List Char) : hasSub n (n ++ b) = true := by
  cases n with
  | nil =>
    cases b with
    | nil => rfl
    | cons c cs => simp [hasSub, startsWith]
  | cons x xs =>
    have h := startsWith_append (x :: xs) b
    simp only [List.cons_append] at h ⊢
    simp [hasSub, h]

theorem hasSub_sandwich (a n b : List Char) : hasSub n (a ++ (n ++ b)) = true := by
  induction a with
  | nil => simpa using hasSub_self_append n b
  | cons c cs ih => simp [hasSub, ih]

/-! ## C1: PDF date parsing -/

/-- C1 (counterexample): the claim says every string that does not match
the `D:YYYYMMDDHHmmSS[Z|±HH'MM']` shape yields no date, but
`parse_pdf_date` uses `re.match`, a prefix match: the string
`D:20230615143000XYZ` does not match the shape, yet parses to the naive
datetime 2023-06-15 14:30:00. -/
theorem parse_pdf_date_shape_counterexample :
    pdfDateShape "D:20230615143000XYZ" = false ∧
    parse_pdf_date "D:20230615143000XYZ" = some ⟨2023, 6, 15, 14, 30, 0, none⟩ := by
  exact ⟨by decide, by decide⟩

/-- C1 (amended): `parse_pdf_date` parses a well-formed
`D:YYYYMMDDHHmmSS[Z|±HH'MM']` **prefix** of the string — trailing
characters after the matched part are ignored and a malformed timezone
suffix yields a naive datetime; `"D:20230615143000+05'00'"` parses to
2023-06-15 14:30:00 at offset +05:00 (+300 minutes);
`"D:20231301000000Z"` (month 13) and any other out-of-range components
yield `none`; every parsed datetime has in-range components; a string not
beginning with `D:` and 14 digits yields `none`; the function is total,
never raising. -/
theorem parse_pdf_date_correct :
    parse_pdf_date ("D:20230615143000+05" ++ squo ++ "00" ++ squo) =
      some ⟨2023, 6, 15, 14, 30, 0, some 300⟩ ∧
    parse_pdf_date "D:20231301000000Z" = none ∧
    (∀ s dt, parse_pdf_date s = some dt →
      1 ≤ dt.month ∧ dt.month ≤ 12 ∧ 1 ≤ dt.day ∧ dt.day ≤ 31 ∧
        dt.hour ≤ 23 ∧ dt.minute ≤ 59 ∧ dt.second ≤ 59) ∧
    (∀ s, (parse_pdf_date s).isSome = true → pdfPrefixOk s = true) := by
  refine ⟨by decide, by decide, ?_, ?_⟩
  · intro s dt h
    simp only [parse_pdf_date] at h
    split at h
    · split at h
      · split at h
        · split at h
          · split at h
            · injection h with h'
              subst h'
              assumption
            · split at h
              · injection h with h'
                subst h'
                assumption
              · exact absurd h (by simp)
          · exact absurd h (by simp)
        · exact absurd h (by simp)
      · exact absurd h (by simp)
    · exact absurd h (by simp)
  · intro s h
    simp only [parse_pdf_date] at h
    split at h
    · rename_i rest heq
      split at h
      · rename_i hguard
        simp only [pdfPrefixOk, heq]
        simp [hguard.1, hguard.2]
      · simp at h
    · simp at h

/-- Witness for `parse_pdf_date_correct`: its hypothesis-bearing parts
applied at concrete inputs. -/
theorem parse_pdf_date_correct_witness :
    (parse_pdf_date "D:20230615143000Z" = some ⟨2023, 6, 15, 14, 30, 0, some 0⟩) ∧
    (1 ≤ (⟨2023, 6, 15, 14, 30, 0, some 0⟩ : PdfDate).month ∧
      (⟨2023, 6, 15, 14, 30, 0, some 0⟩ : PdfDate).month ≤ 12 ∧
      1 ≤ (⟨2023, 6, 15, 14, 30, 0, some 0⟩ : PdfDate).day ∧
      (⟨2023, 6, 15, 14, 30, 0, some 0⟩ : PdfDate).day ≤ 31 ∧
      (⟨2023, 6, 15, 14, 30, 0, some 0⟩ : PdfDate).hour ≤ 23 ∧
      (⟨2023, 6, 15, 14, 30, 0, some 0⟩ : PdfDate).minute ≤ 59 ∧
      (⟨2023, 6, 15, 14, 30, 0, some 0⟩ : PdfDate).second ≤ 59) ∧
    pdfPrefixOk "D:20230615143000Z" = true := by
  refine ⟨by decide, ?_, ?_⟩
  · exact parse_pdf_date_correct.2.2.1 "D:20230615143000Z" _ (by decide)
  · exact parse_pdf_date_correct.2.2.2 "D:20230615143000Z" (by decide)

/-! ## C6: signature/type verifier priority -/

/-- C6: the signature verifier returns at most one warning per file, and
the ordered rule table is applied first-match-wins before the generic
executable rule: whenever the sniffed content type contains "PDF", a
`.jpg` file gets the fake-image warning — which is not the generic
suspicious-executable warning — even if the type also contains
"executable" so that the generic rule could structurally match too. -/
theorem check_file_signature_mismatch_priority :
    (∀ ext t w₁ w₂, check_file_signature_mismatch ext t = some w₁ →
        check_file_signature_mismatch ext t = some w₂ → w₁ = w₂) ∧
    (∀ t, strHasSub "PDF" t = true →
        check_file_signature_mismatch ".jpg" t =
          some "⚠️ FAKE IMAGE: This is actually a PDF document!" ∧
        "⚠️ FAKE IMAGE: This is actually a PDF document!" ≠ suspiciousExecMsg ".jpg") := by
  constructor
  · intro ext t w₁ w₂ h₁ h₂
    rw [h₁] at h₂
    exact Option.some.inj h₂
  · intro t h
    refine ⟨?_, by decide⟩
    simp [check_file_signature_mismatch, red_flags, List.find?, h]

/-- Witness for `check_file_signature_mismatch_priority` on a sniffed
type in which both the `.jpg`+"PDF" rule and the generic executable rule
could match. -/
theorem check_file_signature_mismatch_priority_witness :
    strHasSub "PDF" "PDF document, with executable content" = true ∧
    check_file_signature_mismatch ".jpg" "PDF document, with executable content" =
      some "⚠️ FAKE IMAGE: This is actually a PDF document!" := by
  refine ⟨by decide, ?_⟩
  exact (check_file_signature_mismatch_priority.2 "PDF document, with executable content"
    (by decide)).1

/-! ## C7: missing EXIF required tags -/

/-- C7: for an image whose EXIF data is present, the missing-tags check
over the fixed set {DateTimeOriginal, Make, Model} appends exactly one
combined anomaly listing precisely the missing tags — each exactly once
(the missing list has no duplicates) — and appends nothing when no tag is
missing. -/
theorem process_image_exif_missing_spec :
    ∀ name found,
      (exif_missing_tags found).Nodup ∧
      (∀ t, t ∈ exif_missing_tags found ↔ t ∈ required_tags ∧ found.contains t = false) ∧
      (exif_missing_tags found ≠ [] →
        process_image_exif_missing name found =
          [exif_missing_msg name (exif_missing_tags found)]) ∧
      (exif_missing_tags found = [] → process_image_exif_missing name found = []) := by
  intro name found
  refine ⟨?_, ?_, ?_, ?_⟩
  · exact List.Nodup.filter _ (by decide)
  · intro t
    simp [exif_missing_tags, List.mem_filter]
  · intro h
    have he : (exif_missing_tags found).isEmpty = false := by
      cases hm : exif_missing_tags found with
      | nil => exact absurd hm h
      | cons a l => rfl
    simp [process_image_exif_missing, he]
  · intro h
    simp [process_image_exif_missing, h]

/-- Witness for `process_image_exif_missing_spec`: an EXIF block missing
all three tags yields one anomaly naming all three. -/
theorem process_image_exif_missing_spec_witness :
    exif_missing_tags [] ≠ [] ∧
    process_image_exif_missing "photo.jpg" [] =
      ["File " ++ squo ++ "photo.jpg" ++ squo ++
        ": Missing common EXIF tags: DateTimeOriginal, Make, Model"] := by
  refine ⟨by decide, ?_⟩
  exact ((process_image_exif_missing_spec "photo.jpg" []).2.2.1 (by decide)).trans (by decide)

/-! ## C2: entropy threshold anomaly -/

/-- C2: when the computed entropy is strictly greater than 7.8, the
entropy branch appends exactly one "High Entropy" anomaly whose text
contains the entropy value formatted to 4 decimal places; when it is at
most 7.8, no anomaly is appended. -/
theorem entropy_branch_threshold :
    ∀ (name : String) (e : ℚ),
      ((7.8 : ℚ) < e →
        (entropy_branch name e).anomalies = [fileMsg name (entropy_anomaly_msg e)] ∧
        strHasSub (fmtFixed 4 e) (fileMsg name (entropy_anomaly_msg e)) = true) ∧
      (e ≤ (7.8 : ℚ) → (entropy_branch name e).anomalies = []) := by
  intro name e
  constructor
  · intro h
    constructor
    · simp [entropy_branch, h]
    · have hdata : (fileMsg name (entropy_anomaly_msg e)).data =
          ("File " ++ squo ++ name ++ squo ++ ": " ++
            "⚠️ ENTROPY ANOMALY: High entropy (").data ++
            ((fmtFixed 4 e).data ++
              (") detected - suggests possible hidden data or encryption.").data) := by
        simp [fileMsg, entropy_anomaly_msg, String.data_append, List.append_assoc]
      rw [strHasSub, hdata]
      exact hasSub_sandwich _ _ _
  · intro h
    simp [entropy_branch, not_lt.2 h]

/-- Witness for `entropy_branch_threshold` at entropy 7.9. -/
theorem entropy_branch_threshold_witness :
    (7.8 : ℚ) < 7.9 ∧
    (entropy_branch "secret.png" 7.9).anomalies =
      [fileMsg "secret.png" (entropy_anomaly_msg 7.9)] ∧
    strHasSub (fmtFixed 4 (7.9 : ℚ)) (fileMsg "secret.png" (entropy_anomaly_msg 7.9)) = true := by
  refine ⟨by norm_num, ?_, ?_⟩
  · exact ((entropy_branch_threshold "secret.png" 7.9).1 (by norm_num)).1
  · exact ((entropy_branch_threshold "secret.png" 7.9).1 (by norm_num)).2

/-! ## C4: GPS DMS-to-decimal conversion -/

/-- C4: GPS parsing converts DMS rationals to signed decimal degrees as
`deg + min/60 + sec/3600`, negating latitude for reference "S" and
longitude for "W" (and altitude when the below-sea-level flag equals 1);
DMS (40,26,46)/"N" and (79,58,56)/"W" give latitude ≈ 40.446111 and
longitude ≈ -79.982222 (within 1e-4), and `GPSPosition` is exactly the
two values formatted to 6 decimal places joined by ", ". -/
theorem parse_gps_info_conversion :
    (∀ d m s : ℚ, gps_decimal (some (d, m, s)) (some "N") "S" = some (d + m / 60 + s / 3600)) ∧
    (∀ d m s : ℚ, gps_decimal (some (d, m, s)) (some "S") "S" = some (-(d + m / 60 + s / 3600))) ∧
    (∀ d m s : ℚ, gps_decimal (some (d, m, s)) (some "E") "W" = some (d + m / 60 + s / 3600)) ∧
    (∀ d m s : ℚ, gps_decimal (some (d, m, s)) (some "W") "W" = some (-(d + m / 60 + s / 3600))) ∧
    (∀ a : ℚ, gps_altitude (some (Sum.inl a)) (some 1) = some (-a)) ∧
    |(40 + 26 / 60 + 46 / 3600 : ℚ) - 40.446111| < 1 / 10000 ∧
    |(-(79 + 58 / 60 + 56 / 3600) : ℚ) - (-79.982222)| < 1 / 10000 ∧
    parse_gps_info (some (40, 26, 46)) (some "N") (some (79, 58, 56)) (some "W") =
      (some (40 + 26 / 60 + 46 / 3600), some (-(79 + 58 / 60 + 56 / 3600)),
        some (fmtFixed 6 (40 + 26 / 60 + 46 / 3600 : ℚ) ++ ", " ++
          fmtFixed 6 (-(79 + 58 / 60 + 56 / 3600) : ℚ))) ∧
    fmtFixed 6 (40 + 26 / 60 + 46 / 3600 : ℚ) = "40.446111" ∧
    fmtFixed 6 (-(79 + 58 / 60 + 56 / 3600) : ℚ) = "-79.982222" := by
  refine ⟨?_, ?_, ?_, ?_, ?_, ?_, ?_, ?_, ?_, ?_⟩
  · intro d m s
    simp [gps_decimal]
  · intro d m s
    simp [gps_decimal]
  · intro d m s
    simp [gps_decimal]
  · intro d m s
    simp [gps_decimal]
  · intro a
    simp [gps_altitude]
  · rw [abs_lt]
    constructor <;> norm_num
  · rw [abs_lt]
    constructor <;> norm_num
  · rfl
  · have h : (40 + 26 / 60 + 46 / 3600 : ℚ) = Rat.mk' 72803 1800 (by norm_num) (by decide) := by
      rw [Rat.mk'_eq_divInt, Rat.divInt_eq_div]
      norm_num
    rw [h]
    decide
  · have h : (-(79 + 58 / 60 + 56 / 3600) : ℚ) =
        Rat.mk' (-17996) 225 (by norm_num) (by decide) := by
      rw [Rat.mk'_eq_divInt, Rat.divInt_eq_div]
      norm_num
    rw [h]
    decide

/-! ## C5: GPS coordinate range invariant -/

/-- C5 (counterexample): the claim says a DMS input whose decimal
conversion falls outside [-90,90]/[-180,180] yields no decimal
coordinate and no `GPSPosition`, but `_parse_gps_info` performs no range
check: DMS (200,0,0)/"N" produces `GPSLatitudeDec = 200` (outside the
latitude range) and a composed `GPSPosition`. -/
theorem gps_range_counterexample :
    parse_gps_info (some (200, 0, 0)) (some "N") (some (0, 0, 0)) (some "E") =
      (some 200, some 0, some "200.000000, 0.000000") ∧ ¬((200 : ℚ) ≤ 90) := by
  have hpos : parse_gps_info (some (200, 0, 0)) (some "N") (some (0, 0, 0)) (some "E") =
      (some (200 + 0 / 60 + 0 / 3600 : ℚ), some (0 + 0 / 60 + 0 / 3600 : ℚ),
        some (fmtFixed 6 (200 + 0 / 60 + 0 / 3600 : ℚ) ++ ", " ++
          fmtFixed 6 (0 + 0 / 60 + 0 / 3600 : ℚ))) := rfl
  have h1 : (200 + 0 / 60 + 0 / 3600 : ℚ) = 200 := by norm_num
  have h2 : (0 + 0 / 60 + 0 / 3600 : ℚ) = 0 := by norm_num
  rw [h1, h2] at hpos
  exact ⟨hpos.trans (by decide), by norm_num⟩

/-- C5 (amended): the conversion neither validates nor clamps: whenever
the DMS triple and the reference are present, the decimal coordinate is
produced and equals exactly the signed formula (so it lies in range
precisely when the formula does), and it is absent exactly when one of
the inputs is absent; `GPSPosition` is composed from whatever decimal
values exist, in range or not. -/
theorem gps_decimal_no_range_check :
    (∀ (d m s : ℚ) (ref negR : String),
      gps_decimal (some (d, m, s)) (some ref) negR =
        some (if ref = negR then -(d + m / 60 + s / 3600) else d + m / 60 + s / 3600)) ∧
    (∀ la lo : ℚ, gps_position (some la) (some lo) =
      some (fmtFixed 6 la ++ ", " ++ fmtFixed 6 lo)) ∧
    (∀ (dms : Option (ℚ × ℚ × ℚ)) (ref : Option String) (negR : String),
      gps_decimal dms ref negR = none ↔ dms = none ∨ ref = none) := by
  refine ⟨?_, ?_, ?_⟩
  · intro d m s ref negR
    rfl
  · intro la lo
    rfl
  · intro dms ref negR
    rcases dms with _ | ⟨d, m, s⟩ <;> rcases ref with _ | r <;> simp [gps_decimal]

/-! ## C8: LSB extraction failure handling -/

/-- C8 (counterexample): the claim says every extraction failure is
recorded as an anomaly describing the failure (with a distinguishable
message for permission errors), but `lsb.reveal` sits inside
`try: ... except Exception: pass`, so a failure — including a
`PermissionError` — leaves `hidden_message = None` and is reported as
"No easily extractable LSB data found." with no anomaly at all. -/
theorem lsb_branch_failure_counterexample :
    (lsb_branch "image.png" (RevealOutcome.failed "PermissionError: [Errno 13]")).anomalies
      = [] ∧
    (lsb_branch "image.png" (RevealOutcome.failed "PermissionError: [Errno 13]")).nodes =
      [("LSB Detection", "No easily extractable LSB data found.")] := by
  exact ⟨rfl, rfl⟩

/-- C8 (amended): a failure of the LSB extraction is silently treated as
"no hidden data": it produces the no-data node and appends no anomaly
(the permission-specific and generic handlers of
src/main.py:823-831 are unreachable for it); and a failed extraction is
never reported as a positive hidden-data finding — an anomaly is
appended only for a successful reveal of a non-empty, non-whitespace
message. -/
theorem lsb_branch_failure_silent :
    (∀ name err, lsb_branch name (RevealOutcome.failed err) =
      ⟨[("LSB Detection", "No easily extractable LSB data found.")], []⟩) ∧
    (∀ name outcome w, w ∈ (lsb_branch name outcome).anomalies →
      ∃ m, outcome = RevealOutcome.ok (some m) ∧ m ≠ "" ∧ m.trim ≠ "" ∧
        w = fileMsg name lsb_hidden_msg) := by
  constructor
  · intro name err
    rfl
  · intro name outcome w hw
    match outcome with
    | RevealOutcome.failed err => simp [lsb_branch] at hw
    | RevealOutcome.ok none => simp [lsb_branch] at hw
    | RevealOutcome.ok (some m) =>
      by_cases hm : m ≠ "" ∧ m.trim ≠ ""
      · refine ⟨m, rfl, hm.1, hm.2, ?_⟩
        simp [lsb_branch, hm] at hw
        exact hw
      · simp [lsb_branch, hm] at hw

/-- Witness for `lsb_branch_failure_silent`: its first part applied to a
concrete permission failure. -/
theorem lsb_branch_failure_silent_witness :
    lsb_branch "hidden.png" (RevealOutcome.failed "Permission denied") =
      ⟨[("LSB Detection", "No easily extractable LSB data found.")], []⟩ :=
  lsb_branch_failure_silent.1 "hidden.png" "Permission denied"

/-! ## C9: entropy calculation failure -/

/-- C9 (code bug): `calculate_entropy` catches its own file-read failure
and returns the ordinary value 0.0 (src/main.py:882-884), so the
dedicated handlers of `check_steganography` (src/main.py:860-867, which
would record an Error field plus an anomaly) are unreachable for read
failures: the file's entropy is reported as in expected range and no
anomaly is appended — the failure is silently converted into a normal
entropy result, contradicting the claim and the error-handling design
the code itself sets up. -/
theorem calculate_entropy_error_is_zero :
    calculate_entropy (Except.error "FileNotFoundError") = 0 ∧
    (entropy_branch "photo.jpg" 0).anomalies = [] ∧
    (entropy_branch "photo.jpg" 0).nodes =
      [("Entropy", "0.0000"), ("Entropy Status", "Entropy within expected range.")] := by
  have h : ¬((7.8 : ℚ) < 0) := by norm_num
  refine ⟨rfl, ?_, ?_⟩
  · simp only [entropy_branch, if_neg h]
  · simp only [entropy_branch, if_neg h]
    decide

/-! ## C10: DOCX admin authorship double reporting -/

/-- C10 (counterexample): the claim says a DOCX whose "Last Modified By"
contains "admin" gets both an anomaly from the extractor and a
logical-issues entry from the post-extraction suspicious-author check;
in fact the collected metadata dictionary nests "Last Modified By" under
the "DOCX Metadata" group while `check_suspicious_authors` looks it up at
top level, finds nothing, and contributes no logical issue: only the one
anomaly is produced. -/
theorem docx_admin_pipeline_counterexample :
    docx_admin_pipeline "report.docx" "Administrator" =
      (["File " ++ squo ++ "report.docx" ++ squo ++
        ": Modified by admin account - Administrator"], []) := by
  simp +decide [docx_admin_pipeline, docx_lastModifiedBy_step, collectDict,
    check_suspicious_authors, metaGetStr, metaGet, List.find?, docx_admin_msg]

/-- C10 (amended): for every DOCX file whose non-empty "Last Modified By"
contains "admin" (case-insensitive), processing appends exactly one
finding — the extractor's anomaly — and nothing to the logical-issues
sequence, because the post-extraction suspicious-author check reads
"Last Modified By" from the top level of the collected metadata
dictionary, where it is nested under "DOCX Metadata", and so never
re-detects the admin authorship. -/
theorem docx_admin_single_stream :
    ∀ name v, strHasSub "admin" (lowerStr v) = true → v ≠ "" →
      docx_admin_pipeline name v = ([docx_admin_msg name v], []) ∧
      check_suspicious_authors
        (collectDict [MTree.node "DOCX Metadata" ""
          [MTree.node "Last Modified By" v []]]) "docx" = [] := by
  intro name v hadmin hv
  have hcheck : ∀ w : String,
      check_suspicious_authors
        (collectDict [MTree.node "DOCX Metadata" "" [MTree.node "Last Modified By" w []]])
        "docx" = [] := by
    intro w
    simp +decide [check_suspicious_authors, metaGetStr, metaGet, collectDict, List.find?]
  have hstep : docx_lastModifiedBy_step name v =
      ([MTree.node "Last Modified By" v []], [docx_admin_msg name v], []) := by
    simp only [docx_lastModifiedBy_step, if_pos hv, if_pos hadmin]
  constructor
  · simp only [docx_admin_pipeline, hstep]
    rw [hcheck v]
    simp
  · exact hcheck v

/-! ## C3: Shannon entropy properties -/

/-- Auxiliary: the byte histogram totals the length of the data. -/
theorem sum_count_fin (d : List (Fin 256)) : ∑ b : Fin 256, d.count b = d.length := by
  induction d with
  | nil => simp
  | cons a l ih =>
    calc ∑ b : Fin 256, (a :: l).count b
        = ∑ b : Fin 256, (l.count b + if a = b then 1 else 0) := by
          refine Finset.sum_congr rfl fun b _ => ?_
          simp [List.count_cons]
      _ = (∑ b : Fin 256, l.count b) + ∑ b : Fin 256, (if a = b then 1 else 0) :=
          Finset.sum_add_distrib
      _ = l.length + 1 := by
          rw [ih, Finset.sum_ite_eq Finset.univ a (fun _ => 1)]
          simp
      _ = (a :: l).length := by simp

theorem entropy_replicate (b : Fin 256) (n : ℕ) (hn : 0 < n) :
    calculate_entropy_bytes (List.replicate n b) = 0 := by
  have hne : List.replicate n b ≠ [] := by
    simp [List.replicate_eq_nil_iff, hn.ne']
  rw [calculate_entropy_bytes, if_neg hne]
  apply Finset.sum_eq_zero
  intro x _
  by_cases hx : x = b
  · subst hx
    rw [List.count_replicate_self]
    rw [if_neg hn.ne', List.length_replicate]
    rw [div_self (by exact_mod_cast hn.ne')]
    simp
  · have hcount : (List.replicate n b).count x = 0 := by
      rw [List.count_replicate, if_neg]
      simp only [beq_iff_eq]
      exact fun h => hx h.symm
    rw [hcount]
    simp

theorem entropy_uniform (d : List (Fin 256)) (S : Finset (Fin 256)) (m : ℕ)
    (hm : 0 < m) (hS : S.Nonempty) (hc : ∀ b, d.count b = if b ∈ S then m else 0) :
    calculate_entropy_bytes d = Real.logb 2 S.card := by
  have hcard : 0 < S.card := Finset.card_pos.2 hS
  have hlen : d.length = S.card * m := by
    rw [← sum_count_fin d]
    calc ∑ b : Fin 256, d.count b = ∑ b : Fin 256, (if b ∈ S then m else 0) :=
          Finset.sum_congr rfl fun b _ => hc b
      _ = ∑ _b in S, m := by rw [Finset.sum_ite_mem, Finset.univ_inter]
      _ = S.card * m := by rw [Finset.sum_const, smul_eq_mul]
  have hlen0 : d.length ≠ 0 := by
    rw [hlen]
    exact Nat.mul_ne_zero hcard.ne' hm.ne'
  have hdne : d ≠ [] := by
    intro h
    rw [h] at hlen0
    exact hlen0 rfl
  have hm' : (m : ℝ) ≠ 0 := by exact_mod_cast hm.ne'
  have hcard' : (S.card : ℝ) ≠ 0 := by exact_mod_cast hcard.ne'
  rw [calculate_entropy_bytes, if_neg hdne]
  have hterm : ∀ x : Fin 256,
      (if d.count x = 0 then (0 : ℝ)
        else -(((d.count x : ℝ) / (d.length : ℝ)) *
          Real.logb 2 ((d.count x : ℝ) / (d.length : ℝ)))) =
      (if x ∈ S then -(((S.card : ℝ))⁻¹ * Real.logb 2 ((S.card : ℝ))⁻¹) else 0) := by
    intro x
    by_cases hx : x ∈ S
    · have hcx : d.count x = m := by rw [hc x, if_pos hx]
      have hp : ((d.count x : ℝ) / (d.length : ℝ)) = ((S.card : ℝ))⁻¹ := by
        rw [hcx, hlen]
        push_cast
        rw [mul_comm]
        exact div_mul_cancel_left₀ hm' _
      rw [if_neg (by rw [hcx]; exact hm.ne'), hp, if_pos hx]
    · have hcx : d.count x = 0 := by rw [hc x, if_neg hx]
      rw [if_pos hcx, if_neg hx]
  calc ∑ x : Fin 256,
        (if d.count x = 0 then (0 : ℝ)
          else -(((d.count x : ℝ) / (d.length : ℝ)) *
            Real.logb 2 ((d.count x : ℝ) / (d.length : ℝ))))
      = ∑ x : Fin 256,
          (if x ∈ S then -(((S.card : ℝ))⁻¹ * Real.logb 2 ((S.card : ℝ))⁻¹) else 0) :=
        Finset.sum_congr rfl fun x _ => hterm x
    _ = ∑ _x in S, -(((S.card : ℝ))⁻¹ * Real.logb 2 ((S.card : ℝ))⁻¹) := by
        rw [Finset.sum_ite_mem, Finset.univ_inter]
    _ = (S.card : ℝ) * -(((S.card : ℝ))⁻¹ * Real.logb 2 ((S.card : ℝ))⁻¹) := by
        rw [Finset.sum_const, nsmul_eq_mul]
    _ = -(Real.logb 2 ((S.card : ℝ))⁻¹) := by
        field_simp
        ring
    _ = Real.logb 2 (S.card : ℝ) := by
        rw [Real.logb_inv, neg_neg]

theorem entropy_nonneg (d : List (Fin 256)) : 0 ≤ calculate_entropy_bytes d := by
  rw [calculate_entropy_bytes]
  split
  · exact le_refl 0
  · rename_i hd
    apply Finset.sum_nonneg
    intro b _
    split
    · exact le_refl 0
    · rename_i hb
      have hlen : 0 < d.length := List.length_pos.2 hd
      have hp0 : (0 : ℝ) < (d.count b : ℝ) / (d.length : ℝ) := by
        apply div_pos
        · exact_mod_cast Nat.pos_of_ne_zero hb
        · exact_mod_cast hlen
      have hp1 : (d.count b : ℝ) / (d.length : ℝ) ≤ 1 := by
        rw [div_le_one (by exact_mod_cast hlen)]
        exact_mod_cast List.count_le_length b d
      have hlog : Real.logb 2 ((d.count b : ℝ) / (d.length : ℝ)) ≤ 0 :=
        Real.logb_nonpos one_lt_two hp0.le hp1
      have := mul_nonpos_of_nonneg_of_nonpos hp0.le hlog
      linarith

set_option maxRecDepth 8000 in
theorem entropy_le_eight (d : List (Fin 256)) : calculate_entropy_bytes d ≤ 8 := by
  rw [calculate_entropy_bytes]
  split
  · norm_num
  rename_i hd
  have hlen : 0 < d.length := List.length_pos.2 hd
  have hlenR : (0 : ℝ) < (d.length : ℝ) := by exact_mod_cast hlen
  set S : Finset (Fin 256) := Finset.univ.filter (fun b => d.count b ≠ 0) with hSdef
  have hlog2 : (0 : ℝ) < Real.log 2 := Real.log_pos one_lt_two
  have hsplit : ∑ b : Fin 256,
      (if d.count b = 0 then (0 : ℝ)
        else -(((d.count b : ℝ) / (d.length : ℝ)) *
          Real.logb 2 ((d.count b : ℝ) / (d.length : ℝ)))) =
      ∑ b in S, -(((d.count b : ℝ) / (d.length : ℝ)) *
        Real.logb 2 ((d.count b : ℝ) / (d.length : ℝ))) := by
    rw [Finset.sum_filter]
    refine Finset.sum_congr rfl fun b _ => ?_
    by_cases hb : d.count b = 0
    · rw [if_pos hb, if_neg (by simp [hb])]
    · rw [if_neg hb, if_pos hb]
  rw [hsplit]
  have hsum1 : ∑ b in S, ((d.count b : ℝ) / (d.length : ℝ)) = 1 := by
    rw [← Finset.sum_div]
    have hext : ∑ b in S, (d.count b : ℝ) = ∑ b : Fin 256, (d.count b : ℝ) := by
      apply Finset.sum_subset (Finset.filter_subset _ _)
      intro b _ hbS
      have : d.count b = 0 := by
        by_contra hne
        exact hbS (Finset.mem_filter.2 ⟨Finset.mem_univ b, hne⟩)
      simp [this]
    rw [hext, ← Nat.cast_sum, sum_count_fin d, div_self hlenR.ne']
  have hgibbs : ∀ b ∈ S,
      -(((d.count b : ℝ) / (d.length : ℝ)) *
        Real.logb 2 ((d.count b : ℝ) / (d.length : ℝ))) ≤
      (((d.count b : ℝ) / (d.length : ℝ)) * Real.log 256 +
        ((1 : ℝ) / 256 - (d.count b : ℝ) / (d.length : ℝ))) / Real.log 2 := by
    intro b hb
    have hcb : d.count b ≠ 0 := (Finset.mem_filter.1 hb).2
    set p : ℝ := (d.count b : ℝ) / (d.length : ℝ) with hpdef
    have hp : 0 < p := by
      apply div_pos
      · exact_mod_cast Nat.pos_of_ne_zero hcb
      · exact hlenR
    have h1 : Real.log (1 / (256 * p)) ≤ 1 / (256 * p) - 1 :=
      Real.log_le_sub_one_of_pos (by positivity)
    have h2 : p * Real.log (1 / (256 * p)) ≤ p * (1 / (256 * p) - 1) :=
      mul_le_mul_of_nonneg_left h1 hp.le
    have h3 : Real.log (1 / (256 * p)) = -(Real.log 256 + Real.log p) := by
      rw [one_div, Real.log_inv, Real.log_mul (by norm_num) hp.ne']
    have h4 : p * (1 / (256 * p) - 1) = 1 / 256 - p := by
      field_simp
      ring
    rw [h3, h4] at h2
    have h5 : -(p * Real.log p) ≤ p * Real.log 256 + (1 / 256 - p) := by nlinarith
    have h6 : Real.logb 2 p = Real.log p / Real.log 2 := rfl
    have h7 : -(p * (Real.log p / Real.log 2)) = (-(p * Real.log p)) / Real.log 2 := by
      ring
    rw [h6, h7]
    exact (div_le_div_iff_of_pos_right hlog2).2 h5
  have hcardS : (S.card : ℝ) ≤ 256 := by
    have h1 : S.card ≤ 256 := by
      simpa using Finset.card_le_univ S
    exact_mod_cast h1
  calc ∑ b in S, -(((d.count b : ℝ) / (d.length : ℝ)) *
        Real.logb 2 ((d.count b : ℝ) / (d.length : ℝ)))
      ≤ ∑ b in S, ((((d.count b : ℝ) / (d.length : ℝ)) * Real.log 256 +
          ((1 : ℝ) / 256 - (d.count b : ℝ) / (d.length : ℝ))) / Real.log 2) :=
        Finset.sum_le_sum hgibbs
    _ = ((∑ b in S, ((d.count b : ℝ) / (d.length : ℝ))) * Real.log 256 +
          ((S.card : ℝ) / 256 - ∑ b in S, ((d.count b : ℝ) / (d.length : ℝ)))) /
          Real.log 2 := by
        rw [← Finset.sum_div]
        congr 1
        rw [Finset.sum_add_distrib, Finset.sum_sub_distrib, ← Finset.sum_mul,
          Finset.sum_const, nsmul_eq_mul]
        ring
    _ = (Real.log 256 + ((S.card : ℝ) / 256 - 1)) / Real.log 2 := by
        rw [hsum1]
        ring_nf
    _ ≤ Real.log 256 / Real.log 2 := by
        apply (div_le_div_iff_of_pos_right hlog2).2
        have : (S.card : ℝ) / 256 - 1 ≤ 0 := by
          have : (S.card : ℝ) / 256 ≤ 1 := by
            rw [div_le_one (by norm_num)]
            exact hcardS
          linarith
        linarith
    _ = 8 := by
        rw [show (256 : ℝ) = 2 ^ 8 by norm_num, Real.log_pow]
        field_simp

/-- Witness for `docx_admin_single_stream` at a concrete admin author. -/
theorem docx_admin_single_stream_witness :
    strHasSub "admin" (lowerStr "Administrator") = true ∧ "Administrator" ≠ "" ∧
    docx_admin_pipeline "meeting.docx" "Administrator" =
      ([docx_admin_msg "meeting.docx" "Administrator"], []) := by
  refine ⟨by decide, by decide, ?_⟩
  exact (docx_admin_single_stream "meeting.docx" "Administrator" (by decide) (by decide)).1

/-- C3: the entropy of a byte sequence is a pure function of the bytes
(re-computation yields the same value); it is 0 for the empty sequence
and for any non-empty all-identical sequence; a sequence in which exactly
the byte values of a non-empty set `S` occur, each equally often, has
entropy `log2 |S|`; and the value always lies in [0, 8]. -/
theorem calculate_entropy_props :
    (∀ d₁ d₂ : List (Fin 256), d₁ = d₂ →
      calculate_entropy_bytes d₁ = calculate_entropy_bytes d₂) ∧
    calculate_entropy_bytes [] = 0 ∧
    (∀ (b : Fin 256) (n : ℕ), 0 < n → calculate_entropy_bytes (List.replicate n b) = 0) ∧
    (∀ (d : List (Fin 256)) (S : Finset (Fin 256)) (m : ℕ), 0 < m → S.Nonempty →
      (∀ b, d.count b = if b ∈ S then m else 0) →
      calculate_entropy_bytes d = Real.logb 2 (S.card : ℝ)) ∧
    (∀ d : List (Fin 256), 0 ≤ calculate_entropy_bytes d ∧ calculate_entropy_bytes d ≤ 8) := by
  refine ⟨fun d₁ d₂ h => by rw [h], by simp [calculate_entropy_bytes], entropy_replicate,
    ?_, fun d => ⟨entropy_nonneg d, entropy_le_eight d⟩⟩
  intro d S m hm hS hc
  exact entropy_uniform d S m hm hS hc

set_option maxRecDepth 100000 in
/-- Witness for `calculate_entropy_props`: three identical bytes give
entropy 0; the two-byte sequence [0, 1] realises `log2 2` over the
support {0, 1}; and entropy is non-negative on a concrete sequence. -/
theorem calculate_entropy_props_witness :
    (0 < 3) ∧ calculate_entropy_bytes (List.replicate 3 (0 : Fin 256)) = 0 ∧
    (0 < (1 : ℕ)) ∧ Finset.Nonempty ({0, 1} : Finset (Fin 256)) ∧
    (∀ b : Fin 256, ([0, 1] : List (Fin 256)).count b =
      if b ∈ ({0, 1} : Finset (Fin 256)) then 1 else 0) ∧
    calculate_entropy_bytes ([0, 1] : List (Fin 256)) =
      Real.logb 2 ((({0, 1} : Finset (Fin 256)).card : ℕ) : ℝ) ∧
    0 ≤ calculate_entropy_bytes [5, 7] := by
  refine ⟨by norm_num, calculate_entropy_props.2.2.1 0 3 (by norm_num), by norm_num,
    by decide, by decide,
    calculate_entropy_props.2.2.2.1 [0, 1] {0, 1} 1 (by norm_num) (by decide) (by decide),
    (calculate_entropy_props.2.2.2.2 [5, 7]).1⟩
